import Mathlib

/-!
# WeFly backend — verification of the booking-pricing, confirmation-code and
# webhook-reconciliation logic

Shallow embedding of the revisions of the WeFly Stripe backend found in the
repository (`server.js`, `src/unnamed/part_000` … `part_007`).  Client
requests are JSON bodies; the numeric fields that the code coerces with
`Number(...)`/`parseInt`/`parseFloat` are modelled as `Int` (clients may send
negative numbers; every quantity the claims touch stays integral, so
`Math.round` on these values is the identity and floating point plays no
role).  JS string truthiness (`undefined`/`null`/`""` are falsy) is modelled
on `Option String`.
-/

/-- One entry of the request's `addons` array: `{name, price}`.  The `price`
field is the client-supplied price that revision 1 (`server.js` lines 45-65)
reads; `part_007` ignores it. -/
structure Addon where
  name : String
  price : Int
deriving DecidableEq, Repr

/-- The booking request body, restricted to the fields the modelled code
reads: `adults`, `children`, `addons`, the client-supplied `total` (absent ↦
`parseFloat` yields `NaN`, modelled as `none`) and `contact.email`
(`none`/`some ""` are the JS-falsy cases). -/
structure Booking where
  adults : Int
  children : Int
  addons : List Addon
  total : Option Int
  email : Option String
deriving DecidableEq, Repr

/-- JS truthiness of an optional string: `undefined`/`null`/`""` are falsy. -/
def jsTruthyStr : Option String → Bool
  | none => false
  | some s => !s.isEmpty

/-- The email shape check `/^[^\s@]+@[^\s@]+\.[^\s@]+$/` used by every
revision: exactly one `@` (both character classes exclude `@`), a nonempty
whitespace-free local part, and a domain part containing a dot that is
neither its first nor its last character. -/
def isEmailChar (c : Char) : Bool := !c.isWhitespace && !(c == '@')

def emailRegexTest (s : String) : Bool :=
  match s.splitOn "@" with
  | [a, b] =>
      !a.isEmpty && a.data.all isEmailChar &&
      !b.isEmpty && b.data.all isEmailChar &&
      (b.data.drop 1).dropLast.any (fun c => c == '.')
  | _ => false

/-- Combined guard `contact.email && !emailRegex.test(contact.email)` used by
the booking-creation endpoints. -/
def emailCheckFails (email : Option String) : Bool :=
  jsTruthyStr email && !emailRegexTest (email.getD "")

/-! ## Price tables (server-side) -/

/-- `PRICES.adult` (`server.js` line 43, `part_000` line 341, `part_007`
line 65). -/
def PRICES_ADULT : Int := 2500

/-- `PRICES.child` / `PRICES.CHILD`. -/
def PRICES_CHILD : Int := 2200

/-- `PRICES.ADDONS` of `part_007` lines 67-72. -/
def ADDON_PHOTOSHOOT : Int := 1200
def ADDON_VIDEO_DRONE : Int := 1200
def ADDON_DESAYUNO : Int := 600

/-! ## Pricing, revision 1 (`server.js` lines 45-65) -/

/-- `computeTotalMXN` of `server.js` lines 45-65: base price from the server
table, but every addon contributes its CLIENT-supplied `price` (`Number(a.price)||0`),
multiplied by pax for `'Desayuno en La Cueva'` and taken once otherwise; the
result is clamped with `Math.max(0, Math.round(total))` (round is the identity
on these integral values). -/
def computeTotalMXN (b : Booking) : Int :=
  let adults := b.adults
  let children := b.children
  let pax := adults + children
  let base := adults * PRICES_ADULT + children * PRICES_CHILD
  let addonsTotal := b.addons.foldl
    (fun acc a => acc + (if a.name == "Desayuno en La Cueva" then a.price * pax else a.price)) 0
  max 0 (base + addonsTotal)

/-- `computeTotalMXN` of `part_002` lines 46-67: identical except that addons
with an empty name are skipped (`if (!name) continue`). -/
def computeTotalMXNPartTwo (b : Booking) : Int :=
  let adults := b.adults
  let children := b.children
  let pax := adults + children
  let base := adults * PRICES_ADULT + children * PRICES_CHILD
  let addonsTotal := b.addons.foldl
    (fun acc a =>
      if a.name == "" then acc
      else acc + (if a.name == "Desayuno en La Cueva" then a.price * pax else a.price)) 0
  max 0 (base + addonsTotal)

/-! ## Pricing, `part_007` (`computeServerTotalMXN`, lines 79-102) -/

/-- The addon contribution of `part_007` lines 89-97: fixed server prices,
`Photoshoot` and `Video con Drone`/`Video con Dron` flat per booking,
`Desayuno en La Cueva` per passenger; any other name contributes nothing. -/
def serverAddonsTotal (names : List String) (paxCount : Int) : Int :=
  (if names.any (fun n => n == "Photoshoot") then ADDON_PHOTOSHOOT else 0) +
  (if names.any (fun n => n == "Video con Drone" || n == "Video con Dron") then ADDON_VIDEO_DRONE else 0) +
  (if names.any (fun n => n == "Desayuno en La Cueva") then ADDON_DESAYUNO * paxCount else 0)

/-- The `base + addonsTotal` value computed by `computeServerTotalMXN` before
its final positivity check. -/
def serverTotalRaw (b : Booking) : Int :=
  b.adults * PRICES_ADULT + b.children * PRICES_CHILD +
    serverAddonsTotal (b.addons.map (fun a => a.name)) (b.adults + b.children)

/-- `computeServerTotalMXN` of `part_007` lines 79-102: throws (modelled as
`Except.error`) when `adults+children ≤ 0` and when the computed total is
`≤ 0`; otherwise returns the server-side total. -/
def computeServerTotalMXN (b : Booking) : Except String Int :=
  if b.adults + b.children ≤ 0 then .error "Debe haber al menos 1 pasajero."
  else if serverTotalRaw b ≤ 0 then .error "Total calculado inválido."
  else .ok (serverTotalRaw b)

/-! ## Booking-creation endpoints -/

/-- Outcome of a `POST /create-checkout-session` / `/create-payment-intent`
request, keeping the distinct 400 responses apart and recording the
`unit_amount`/`amount` (in centavos) passed to the payment provider on
success. -/
inductive CheckoutResponse where
  /-- 400 `Total inválido.` / `El total de la reserva no es válido.` -/
  | badTotal
  /-- 400 `Debes seleccionar al menos un pasajero.` -/
  | badPax
  /-- 400 `Email de contacto inválido.` -/
  | badEmail
  /-- 500 from the surrounding catch (a thrown pricing error). -/
  | serverError (msg : String)
  /-- Session/intent created; payload is the minor-unit amount sent to Stripe. -/
  | session (unitAmount : Int)
deriving DecidableEq, Repr

/-- `POST /create-checkout-session` of `server.js` revision 1 (lines 73-185):
recomputes the total server-side with `computeTotalMXN`, rejects
`amountMXN ≤ 0`, then `pax ≤ 0`, then a truthy-but-invalid email, and finally
creates the session with `unit_amount = amountMXN * 100`. -/
def createCheckoutSessionV1 (b : Booking) : CheckoutResponse :=
  let amountMXN := computeTotalMXN b
  if amountMXN ≤ 0 then .badTotal
  else if b.adults + b.children ≤ 0 then .badPax
  else if emailCheckFails b.email then .badEmail
  else .session (amountMXN * 100)

/-- `POST /create-checkout-session` of `part_002` (lines 118-270): same
validation chain, with `part_002`'s `computeTotalMXN` variant. -/
def createCheckoutSessionPartTwo (b : Booking) : CheckoutResponse :=
  let amountMXN := computeTotalMXNPartTwo b
  if amountMXN ≤ 0 then .badTotal
  else if b.adults + b.children ≤ 0 then .badPax
  else if emailCheckFails b.email then .badEmail
  else .session (amountMXN * 100)

/-- `POST /create-checkout-session` of `server.js` revision 2 (lines 324-420,
identical in revision 3 lines 580-699 and in the first section of
`part_000`): takes `total = parseFloat(booking.total)` FROM THE CLIENT BODY,
rejects `isNaN(total) || total <= 0`, then `pax ≤ 0`, then a
truthy-but-invalid email, and creates the session with
`unit_amount = Math.round(total * 100)`. -/
def createCheckoutSessionV2 (b : Booking) : CheckoutResponse :=
  match b.total with
  | none => .badTotal
  | some total =>
    if total ≤ 0 then .badTotal
    else if b.adults + b.children ≤ 0 then .badPax
    else if emailCheckFails b.email then .badEmail
    else .session (total * 100)

/-- `POST /create-checkout-session` of `part_001` (lines 34-71): no
validation at all, `unit_amount = bookingDetails.total * 100` straight from
the client body (`none` models the absent-total `NaN` that Stripe would
reject downstream). -/
def partOneUnitAmount (b : Booking) : Option Int :=
  b.total.map (fun t => t * 100)

/-- `POST /create-payment-intent` of `part_007` (lines 118-167): rejects
`pax ≤ 0`, then a truthy-but-invalid email, then computes the server total
(a thrown pricing error is caught and answered with 500) and creates the
intent with `amount = Math.round(totalMXN * 100)`. -/
def createPaymentIntent (b : Booking) : CheckoutResponse :=
  if b.adults + b.children ≤ 0 then .badPax
  else if emailCheckFails b.email then .badEmail
  else
    match computeServerTotalMXN b with
    | .error _ => .serverError "No se pudo iniciar el proceso de pago."
    | .ok totalMXN => .session (totalMXN * 100)

/-! ## Webhook of `part_000` (second section, lines 226-335) -/

/-- The environment configuration the webhook reads. -/
structure WebhookEnv where
  /-- `SENDGRID_API_KEY` present (checked inside `sendBookingEmail`). -/
  sendgridApiKey : Bool
  sendgridTemplateId : Option String
  sendgridTemplateIdStaff : Option String
  bookingsInbox : Option String
deriving DecidableEq, Repr

/-- The fields of a verified `checkout.session.completed` event object that
the handler reads.  `customerEmail` models
`session.customer_details?.email || session.metadata?.customer_email || ''`. -/
structure SessionEvent where
  type : String
  customerEmail : String
  confirmationCode : Option String
deriving DecidableEq, Repr

/-- A performed `sgMail.send` call, reduced to the fields the claims are
about (recipient and template). -/
structure EmailSend where
  toAddr : String
  templateId : String
deriving DecidableEq, Repr

/-- `sendBookingEmail` of `part_000` lines 367-376: returns without sending
when the API key, the template or the recipient is missing. -/
def sendBookingEmail (apiKey : Bool) (toAddr templateId : String) : List EmailSend :=
  if !apiKey || templateId.isEmpty || toAddr.isEmpty then [] else [⟨toAddr, templateId⟩]

/-- `const staffInbox = process.env.BOOKINGS_INBOX || 'info@wefly.com.mx'`
(`part_000` lines 303-304). -/
def staffInbox (env : WebhookEnv) : String :=
  match env.bookingsInbox with
  | some s => if s.isEmpty then "info@wefly.com.mx" else s
  | none => "info@wefly.com.mx"

/-- `const staffTpl = SENDGRID_TEMPLATE_ID_STAFF || SENDGRID_TEMPLATE_ID`
(`part_000` lines 305-307). -/
def staffTemplate (env : WebhookEnv) : Option String :=
  if jsTruthyStr env.sendgridTemplateIdStaff then env.sendgridTemplateIdStaff
  else env.sendgridTemplateId

/-- The e-mails one pass of the `/stripe-webhook` handler of `part_000`
(lines 243-327) sends for a verified event: on
`checkout.session.completed`, the customer mail when
`SENDGRID_TEMPLATE_ID && customer_email` and then the staff copy when
`staffTpl && staffInbox`; nothing for any other event type.  The handler
keeps no record of processed events, so its output depends on the event
alone. -/
def stripeWebhookEmails (env : WebhookEnv) (ev : SessionEvent) : List EmailSend :=
  if ev.type == "checkout.session.completed" then
    (if jsTruthyStr env.sendgridTemplateId && !ev.customerEmail.isEmpty then
       sendBookingEmail env.sendgridApiKey ev.customerEmail (env.sendgridTemplateId.getD "")
     else []) ++
    (if jsTruthyStr (staffTemplate env) then
       sendBookingEmail env.sendgridApiKey (staffInbox env) ((staffTemplate env).getD "")
     else [])
  else []

/-- The HTTP status the `part_000` `/stripe-webhook` handler returns once the
signature has been verified: its whole processing block sits in a try whose
catch (lines 330-333) answers `500 'Webhook handler failed.'`, so a failing
`sgMail.send` turns the response into a 500; otherwise `res.json({received:true})`
is a 200.  `emailSendFails` says whether the e-mail collaborator throws when
it is actually invoked. -/
def stripeWebhookStatus (env : WebhookEnv) (ev : SessionEvent) (emailSendFails : Bool) : Nat :=
  if emailSendFails && !(stripeWebhookEmails env ev).isEmpty then 500 else 200

/-- The HTTP status of `POST /webhook` of `part_007` (lines 170-229): 400
when the webhook secret is missing or signature verification fails; once the
event is parsed, the business-logic switch is wrapped in a try whose catch
only logs (`bizFails` is deliberately unused), and the handler always ends in
`res.json({received:true})` — a 200. -/
def webhookStatusPartSeven (endpointSecret : Option String) (verify : Except String String)
    (bizFails : Bool) : Nat :=
  match endpointSecret with
  | none => 400
  | some _ =>
    match verify with
    | .error _ => 400
    | .ok _ => let _ := bizFails; 200

/-! ## Webhook of `server.js` revision 1 (lines 188-218) -/

/-- Observable outcome of one `POST /webhook` request against revision 1. -/
structure WebhookV1Outcome where
  status : Nat
  /-- body was `{received: true}` -/
  receivedTrue : Bool
  /-- `stripe.webhooks.constructEvent` was invoked -/
  verificationAttempted : Bool
  /-- event types whose handling branch ran -/
  processedTypes : List String
deriving DecidableEq, Repr

/-- The three `if (event.type === …)` branches of the revision-1 handler
(lines 198-212). -/
def handledV1 (t : String) : List String :=
  (if t == "checkout.session.completed" then [t] else []) ++
  (if t == "checkout.session.async_payment_succeeded" then [t] else []) ++
  (if t == "checkout.session.async_payment_failed" then [t] else [])

/-- `POST /webhook` of `server.js` revision 1 (lines 188-218).
`endpointSecret` is `STRIPE_WEBHOOK_SECRET || null` (line 12); when it is
falsy the handler answers `200 {received:true}` at once (lines 189-192),
before reading the signature header or calling `constructEvent`.  `verify`
stands for the outcome of the provider's signature check on (body,
signature). -/
def webhookV1 (endpointSecret : Option String) (verify : Except String String) : WebhookV1Outcome :=
  if !jsTruthyStr endpointSecret then ⟨200, true, false, []⟩
  else
    match verify with
    | .error _ => ⟨400, false, true, []⟩
    | .ok t => ⟨200, true, true, handledV1 t⟩

/-! ## Confirmation codes (`part_000` lines 343-350) -/

/-- The `customAlphabet` argument of `part_000` line 344: the unambiguous
alphabet the 6-character suffix is drawn from. -/
def CONFIRM_ALPHABET : String := "ABCDEFGHJKMNPQRSTUVWXYZ23456789"

/-- `nano()` — the generator returned by
`customAlphabet(CONFIRM_ALPHABET, 6)`: six characters of the alphabet, each
picked by the entropy source `e`. -/
def nano (e : Fin 6 → Fin CONFIRM_ALPHABET.length) : String :=
  ⟨List.ofFn (fun i : Fin 6 => CONFIRM_ALPHABET.data.get (e i))⟩

/-- `String(n).padStart(2, '0')` for a `Nat` (`Nat.repr` is never empty, so
a single pad step suffices). -/
def padStart2 (n : Nat) : String :=
  let s := Nat.repr n
  if s.length < 2 then "0" ++ s else s

/-- The fields `buildConfirmationCode` reads off its `Date` argument:
`getFullYear()`, `getMonth() + 1` (1-12 on any valid JS date) and
`getDate()` (1-31 on any valid JS date). -/
structure JsDate where
  year : Nat
  month : Nat
  day : Nat
deriving DecidableEq, Repr

/-- `buildConfirmationCode` of `part_000` lines 345-350:
`WFT-${y}${m}${d}-${nano()}` with `m`/`d` zero-padded to two characters and
`y = String(date.getFullYear())` (NOT padded). -/
def buildConfirmationCode (date : JsDate) (e : Fin 6 → Fin CONFIRM_ALPHABET.length) : String :=
  "WFT-" ++ Nat.repr date.year ++ padStart2 date.month ++ padStart2 date.day ++ "-" ++ nano e

/-- Formalisation of the spec's code format `PREFIX-YYYYMMDD-XXXXXX`
(modelled from the spec's words, for comparison with
`buildConfirmationCode`): the fixed prefix `WFT`, a dash, exactly 8 decimal
digits, a dash, and exactly 6 characters of the unambiguous alphabet. -/
def specDateSuffix (rest : List Char) : Bool :=
  ((rest.take 8).length == 8) && (rest.take 8).all Char.isDigit &&
  (match rest.drop 8 with
   | c :: sfx =>
     (c == '-') && (sfx.length == 6) && sfx.all (fun ch => CONFIRM_ALPHABET.data.contains ch)
   | [] => false)

def specCodeFormatL (l : List Char) : Bool :=
  match l with
  | c1 :: c2 :: c3 :: c4 :: rest =>
    (c1 == 'W') && (c2 == 'F') && (c3 == 'T') && (c4 == '-') && specDateSuffix rest
  | _ => false

def specCodeFormat (s : String) : Bool :=
  specCodeFormatL s.data

/-! ## Concrete inputs used by the claim theorems -/

/-- A minimal valid request with no client total and no email. -/
def bookingNoEmail : Booking :=
  { adults := 1, children := 0, addons := [], total := none, email := none }

/-- An empty request: `adults = children = 0`. -/
def bookingEmpty : Booking :=
  { adults := 0, children := 0, addons := [], total := none, email := none }

/-- Two requests identical except for the client-supplied `total`. -/
def bookingTotalLow : Booking :=
  { adults := 1, children := 0, addons := [], total := some 100, email := none }

def bookingTotalHigh : Booking :=
  { bookingTotalLow with total := some 999999 }

/-- The spec's end-to-end scenario: 2 adults, 1 child, the flat `Photoshoot`
addon (server price 1200) and the per-passenger `Desayuno en La Cueva` addon
(server price 600); client-supplied addon prices are deliberately junk. -/
def scenarioBooking : Booking :=
  { adults := 2, children := 1,
    addons := [⟨"Photoshoot", 1⟩, ⟨"Desayuno en La Cueva", 1⟩],
    total := none, email := none }

/-- A request carrying an addon name absent from every server price table,
with a client-chosen price. -/
def unknownAddonBooking : Booking :=
  { adults := 1, children := 0, addons := [⟨"Globo de Oro", 5000⟩],
    total := none, email := none }

/-- The same request with the unknown addon removed. -/
def unknownAddonRemoved : Booking :=
  { unknownAddonBooking with addons := [] }

/-- A webhook environment with the SendGrid key and customer template set. -/
def webhookEnvEx : WebhookEnv :=
  { sendgridApiKey := true, sendgridTemplateId := some "d-client",
    sendgridTemplateIdStaff := none, bookingsInbox := none }

/-- A verified `checkout.session.completed` event with a customer email. -/
def completedEventEx : SessionEvent :=
  { type := "checkout.session.completed", customerEmail := "ana@example.com",
    confirmationCode := some "WFT-20251012-ABCDEF" }

/-- A fixed entropy source: every draw picks the first alphabet symbol
(`A`). -/
def entropyA : Fin 6 → Fin CONFIRM_ALPHABET.length := fun _ => ⟨0, by decide⟩

/-! ## Claim theorems -/

/-- C1 (refuting evaluation): in `server.js` revision 2 (lines 324-420) and
`part_001`, two booking-creation requests that differ only in the
client-supplied `total` field are charged different amounts — the
`unit_amount` handed to the payment provider is `total * 100` from the
client body — while revision 1 (`createCheckoutSessionV1`) charges the same
server-computed amount for both. -/
theorem c1_client_total_sets_charged_amount :
    createCheckoutSessionV2 bookingTotalLow = .session 10000 ∧
    createCheckoutSessionV2 bookingTotalHigh = .session 99999900 ∧
    partOneUnitAmount bookingTotalLow = some 10000 ∧
    partOneUnitAmount bookingTotalHigh = some 99999900 ∧
    createCheckoutSessionV1 bookingTotalLow = createCheckoutSessionV1 bookingTotalHigh :=
  ⟨rfl, rfl, rfl, rfl, rfl⟩

/-- C2 (refuting evaluation): the `part_000` webhook keeps no record of
processed events and no booking status, so delivering the same verified
`checkout.session.completed` event twice emits the customer and staff
notifications twice (four sends in total) instead of treating the second
delivery as an `ALREADY_PROCESSED` no-op. -/
theorem c2_duplicate_event_resends_notifications :
    stripeWebhookEmails webhookEnvEx completedEventEx =
      [⟨"ana@example.com", "d-client"⟩, ⟨"info@wefly.com.mx", "d-client"⟩] ∧
    stripeWebhookEmails webhookEnvEx completedEventEx ++
        stripeWebhookEmails webhookEnvEx completedEventEx =
      [⟨"ana@example.com", "d-client"⟩, ⟨"info@wefly.com.mx", "d-client"⟩,
       ⟨"ana@example.com", "d-client"⟩, ⟨"info@wefly.com.mx", "d-client"⟩] :=
  ⟨rfl, rfl⟩

/-- C3: for 2 adults, 1 child, the flat addon priced 1200 and the
per-passenger addon priced 600 (adult 2500, child 2200),
`computeServerTotalMXN` returns exactly 10200 MXN and
`POST /create-payment-intent` sends exactly 1020000 centavos to the payment
provider. -/
theorem c3_scenario_total_and_minor_units :
    computeServerTotalMXN scenarioBooking = .ok 10200 ∧
    createPaymentIntent scenarioBooking = .session 1020000 :=
  ⟨rfl, rfl⟩

/-- Inversion: a success value of `computeServerTotalMXN` is exactly the raw
server total, and both guards were passed. -/
theorem computeServerTotalMXN_ok_iff (b : Booking) (t : Int) :
    computeServerTotalMXN b = .ok t ↔
      ¬(b.adults + b.children ≤ 0) ∧ ¬(serverTotalRaw b ≤ 0) ∧ serverTotalRaw b = t := by
  unfold computeServerTotalMXN
  split_ifs <;> simp_all

/-- Supporting fact: `part_007`'s `computeServerTotalMXN` errors whenever
`adults + children ≤ 0`, errors whenever the computed total is `≤ 0`, and
never returns a non-positive total as a success value — the behaviour the
spec's `InvalidBookingError` contract describes. -/
theorem computeServerTotal_rejects_nonpositive (b : Booking) :
    (b.adults + b.children ≤ 0 →
      computeServerTotalMXN b = .error "Debe haber al menos 1 pasajero.") ∧
    (serverTotalRaw b ≤ 0 → ∀ t : Int, computeServerTotalMXN b ≠ .ok t) ∧
    (∀ t : Int, computeServerTotalMXN b = .ok t → 0 < t) := by
  refine ⟨fun h => ?_, fun h t hok => ?_, fun t hok => ?_⟩
  · simp [computeServerTotalMXN, h]
  · rw [computeServerTotalMXN_ok_iff] at hok
    exact hok.2.1 h
  · rw [computeServerTotalMXN_ok_iff] at hok
    obtain ⟨-, h2, h3⟩ := hok
    omega

/-- C4 (refuting evaluation): the cited `server.js` revision-1
`computeTotalMXN` (lines 45-65) has no error path at all — on the empty
booking `{adults:0, children:0}` it returns `Math.max(0, 0) = 0`, a
non-positive total delivered as a plain success value, violating all three
predicates of the claim; `part_007`'s `computeServerTotalMXN` errors on the
same input (and, by `computeServerTotal_rejects_nonpositive`, never returns
a non-positive success value), which is the behaviour the spec demands. -/
theorem c4_rev1_returns_zero_total :
    computeTotalMXN bookingEmpty = 0 ∧
    computeServerTotalMXN bookingEmpty = .error "Debe haber al menos 1 pasajero." :=
  ⟨rfl, rfl⟩

/-- C5 (refuting evaluation): revision 1's `computeTotalMXN` prices EVERY
addon from the client's `price` field — the unknown addon `Globo de Oro`
with client price 5000 raises the total from 2500 to 7500 — whereas
`part_007`'s `computeServerTotalMXN` ignores it, returning the same 2500
with and without the unknown addon. -/
theorem c5_unknown_addon_priced_from_client :
    computeTotalMXN unknownAddonBooking = 7500 ∧
    computeTotalMXN unknownAddonRemoved = 2500 ∧
    computeServerTotalMXN unknownAddonBooking = .ok 2500 ∧
    computeServerTotalMXN unknownAddonRemoved = .ok 2500 :=
  ⟨rfl, rfl, rfl, rfl⟩

/-- C6 (counterexample): the suffix alphabet has fewer than 32 symbols. -/
theorem c6_alphabet_below_32 : CONFIRM_ALPHABET.length < 32 := by decide

/-- C6 (amended): the suffix alphabet has exactly 31 symbols, so the space
of 6-character suffixes is 31^6 = 887503681 — between 2^29 and 2^30, i.e.
slightly below the claimed 2^30. -/
theorem c6_alphabet_31_symbols :
    CONFIRM_ALPHABET.length = 31 ∧
    CONFIRM_ALPHABET.length ^ 6 = 887503681 ∧
    2 ^ 29 < CONFIRM_ALPHABET.length ^ 6 ∧
    CONFIRM_ALPHABET.length ^ 6 < 2 ^ 30 := by
  refine ⟨by decide, by decide, by decide, by decide⟩

/-- C8 (refuting evaluation): in `part_000`, a verified
`checkout.session.completed` event whose confirmation-email send fails is
answered with HTTP 500 (`Webhook handler failed.`), not a 2xx — the
provider will retry; `part_007`'s webhook, by contrast, answers 200 even
when its business logic fails. -/
theorem c8_email_failure_turns_response_500 :
    stripeWebhookStatus webhookEnvEx completedEventEx true = 500 ∧
    webhookStatusPartSeven (some "whsec_test") (.ok "payment_intent.succeeded") true = 200 :=
  ⟨rfl, rfl⟩

/-- C9: in `server.js` revision 1, when `STRIPE_WEBHOOK_SECRET` is not
configured every `POST /webhook` request — whatever the body/signature
verification would have produced — is answered 200 `{received:true}` at
once, with no signature verification attempted and no event processed. -/
theorem c9_missing_secret_short_circuits (secret : Option String)
    (h : secret = none ∨ secret = some "") (verify : Except String String) :
    webhookV1 secret verify = ⟨200, true, false, []⟩ := by
  rcases h with rfl | rfl <;> rfl

theorem c9_missing_secret_short_circuits_witness :
    webhookV1 none (.error "missing stripe-signature") = ⟨200, true, false, []⟩ :=
  c9_missing_secret_short_circuits none (Or.inl rfl) (.error "missing stripe-signature")

/-- C10: booking creation validates the email shape only when a truthy email
is supplied: with `contact.email` absent or empty, neither revision 1 nor
`part_002` can answer the invalid-email 400, and a request that passes the
total and passenger checks reaches session creation. -/
theorem c10_falsy_email_skips_email_validation (b : Booking)
    (h : b.email = none ∨ b.email = some "") :
    createCheckoutSessionV1 b ≠ .badEmail ∧
    createCheckoutSessionPartTwo b ≠ .badEmail ∧
    (0 < computeTotalMXN b → 0 < b.adults + b.children →
      createCheckoutSessionV1 b = .session (computeTotalMXN b * 100)) ∧
    (0 < computeTotalMXNPartTwo b → 0 < b.adults + b.children →
      createCheckoutSessionPartTwo b = .session (computeTotalMXNPartTwo b * 100)) := by
  have hfail : emailCheckFails b.email = false := by
    rcases h with h | h <;> rw [h] <;> decide
  refine ⟨?_, ?_, fun h1 h2 => ?_, fun h1 h2 => ?_⟩
  · unfold createCheckoutSessionV1
    by_cases hA : computeTotalMXN b ≤ 0 <;> by_cases hB : b.adults + b.children ≤ 0 <;>
      simp [hA, hB, hfail]
  · unfold createCheckoutSessionPartTwo
    by_cases hA : computeTotalMXNPartTwo b ≤ 0 <;> by_cases hB : b.adults + b.children ≤ 0 <;>
      simp [hA, hB, hfail]
  · unfold createCheckoutSessionV1
    rw [if_neg (by omega), if_neg (by omega), if_neg (by simp [hfail])]
  · unfold createCheckoutSessionPartTwo
    rw [if_neg (by omega), if_neg (by omega), if_neg (by simp [hfail])]

theorem c10_falsy_email_skips_email_validation_witness :
    createCheckoutSessionV1 bookingNoEmail =
      .session (computeTotalMXN bookingNoEmail * 100) :=
  (c10_falsy_email_skips_email_validation bookingNoEmail (Or.inl rfl)).2.2.1
    (by decide) (by decide)

/-! ## Length and digit structure of `Nat.repr` (for the confirmation-code
format) -/

theorem digitChar_isDigit {m : Nat} (h : m < 10) : (Nat.digitChar m).isDigit = true := by
  have hall : ∀ k, k < 10 → (Nat.digitChar k).isDigit = true := by decide
  exact hall m h

/-- `Nat.toDigitsCore` emits exactly `log₁₀ n + 1` digits (given enough
fuel) on top of the accumulator. -/
theorem toDigitsCore_digits_len (f : Nat) :
    ∀ (n : Nat) (ds : List Char), 0 < n → n < 10 ^ f →
      (Nat.toDigitsCore 10 f n ds).length = Nat.log 10 n + 1 + ds.length := by
  induction f with
  | zero => intro n ds hn hf; simp at hf; omega
  | succ f ih =>
    intro n ds hn hf
    simp only [Nat.toDigitsCore]
    by_cases h0 : n / 10 = 0
    · have hlt : n < 10 := by
        by_contra hc
        have : 0 < n / 10 := Nat.div_pos (by omega) (by norm_num)
        omega
      have hlog : Nat.log 10 n = 0 := by
        rw [Nat.log_eq_zero_iff]; exact Or.inl hlt
      simp [h0, hlog]
      omega
    · have h10 : 10 ≤ n := by
        by_contra hc
        exact h0 (Nat.div_eq_of_lt (by omega))
      have hpos : 0 < n / 10 := Nat.pos_of_ne_zero h0
      have hbound : n / 10 < 10 ^ f := by
        rw [Nat.div_lt_iff_lt_mul (by norm_num : (0:Nat) < 10)]
        calc n < 10 ^ (f + 1) := hf
        _ = 10 ^ f * 10 := by rw [Nat.pow_succ]
      rw [if_neg h0, ih (n / 10) _ hpos hbound]
      have hlog : Nat.log 10 (n / 10) = Nat.log 10 n - 1 := Nat.log_div_base 10 n
      have hlogpos : 0 < Nat.log 10 n := Nat.log_pos (by norm_num) h10
      simp only [List.length_cons]
      omega

theorem repr_length_eq_log (n : Nat) (hn : 0 < n) :
    (Nat.repr n).length = Nat.log 10 n + 1 := by
  have hf : n < 10 ^ (n + 1) := by
    calc n < 10 ^ n := Nat.lt_pow_self (by norm_num) n
    _ ≤ 10 ^ (n + 1) := Nat.pow_le_pow_right (by norm_num) (Nat.le_succ n)
  simpa [Nat.repr, Nat.toDigits, String.length, List.asString] using
    toDigitsCore_digits_len (n + 1) n [] hn hf

theorem toDigitsCore_all_digits (f : Nat) :
    ∀ (n : Nat) (ds : List Char), ds.all Char.isDigit = true →
      (Nat.toDigitsCore 10 f n ds).all Char.isDigit = true := by
  induction f with
  | zero => intro n ds h; simpa [Nat.toDigitsCore] using h
  | succ f ih =>
    intro n ds h
    have hd : (Nat.digitChar (n % 10)).isDigit = true :=
      digitChar_isDigit (Nat.mod_lt n (by norm_num))
    simp only [Nat.toDigitsCore]
    by_cases h0 : n / 10 = 0
    · simp [h0, hd, h]
    · rw [if_neg h0]
      exact ih _ _ (by simp [hd, h])

theorem repr_all_digits (n : Nat) : (Nat.repr n).data.all Char.isDigit = true :=
  toDigitsCore_all_digits (n + 1) n [] rfl

/-- `String(n).padStart(2,'0')` of a number between 1 and 99 is two decimal
digits. -/
theorem padStart2_two_digits {m : Nat} (h1 : 1 ≤ m) (h2 : m ≤ 99) :
    (padStart2 m).data.length = 2 ∧ (padStart2 m).data.all Char.isDigit = true := by
  by_cases h : m < 10
  · have hlog : Nat.log 10 m = 0 := by
      rw [Nat.log_eq_zero_iff]; exact Or.inl h
    have hlen : (Nat.repr m).length = 1 := by
      rw [repr_length_eq_log m (by omega), hlog]
    unfold padStart2
    rw [if_pos (by omega)]
    constructor
    · show ("0" ++ Nat.repr m).data.length = 2
      rw [String.data_append, List.length_append]
      have : (Nat.repr m).data.length = 1 := hlen
      simp [this]
    · show (("0" ++ Nat.repr m).data.all Char.isDigit) = true
      rw [String.data_append, List.all_append]
      have h0 : ("0" : String).data.all Char.isDigit = true := by decide
      simp [h0, repr_all_digits]
  · have h10 : 10 ≤ m := by omega
    have hlog : Nat.log 10 m = 1 := by
      apply Nat.log_eq_of_pow_le_of_lt_pow
      · simpa using h10
      · norm_num; omega
    have hlen : (Nat.repr m).length = 2 := by
      rw [repr_length_eq_log m (by omega), hlog]
    unfold padStart2
    rw [if_neg (by omega)]
    exact ⟨hlen, repr_all_digits m⟩

/-- `String(y)` of a 4-digit year is four decimal digits. -/
theorem repr_year_four_digits {y : Nat} (h1 : 1000 ≤ y) (h2 : y ≤ 9999) :
    (Nat.repr y).data.length = 4 ∧ (Nat.repr y).data.all Char.isDigit = true := by
  have hlog : Nat.log 10 y = 3 := by
    apply Nat.log_eq_of_pow_le_of_lt_pow
    · norm_num; omega
    · norm_num; omega
  have hlen : (Nat.repr y).length = 4 := by
    rw [repr_length_eq_log y (by omega), hlog]
  exact ⟨hlen, repr_all_digits y⟩

theorem nano_data (e : Fin 6 → Fin CONFIRM_ALPHABET.length) :
    (nano e).data = List.ofFn (fun i : Fin 6 => CONFIRM_ALPHABET.data.get (e i)) := rfl

/-- Every suffix character is drawn from the alphabet. -/
theorem nano_mem_alphabet (e : Fin 6 → Fin CONFIRM_ALPHABET.length) :
    ∀ c ∈ (nano e).data, c ∈ CONFIRM_ALPHABET.data := by
  intro c hc
  rw [nano_data, List.mem_ofFn] at hc
  obtain ⟨i, rfl⟩ := hc
  exact List.get_mem _ _ _

/-- For a 4-digit year and valid month/day ranges, the generated code
matches `WFT-YYYYMMDD-XXXXXX`. -/
theorem buildConfirmationCode_format (date : JsDate) (e : Fin 6 → Fin CONFIRM_ALPHABET.length)
    (hy1 : 1000 ≤ date.year) (hy2 : date.year ≤ 9999)
    (hm1 : 1 ≤ date.month) (hm2 : date.month ≤ 12)
    (hd1 : 1 ≤ date.day) (hd2 : date.day ≤ 31) :
    specCodeFormat (buildConfirmationCode date e) = true := by
  obtain ⟨hylen, hydig⟩ := repr_year_four_digits hy1 hy2
  obtain ⟨hmlen, hmdig⟩ := padStart2_two_digits hm1 (by omega)
  obtain ⟨hdlen, hddig⟩ := padStart2_two_digits hd1 (by omega)
  have hdata : (buildConfirmationCode date e).data =
      'W' :: 'F' :: 'T' :: '-' ::
        ((((Nat.repr date.year).data ++ (padStart2 date.month).data) ++ (padStart2 date.day).data)
          ++ '-' :: (nano e).data) := by
    show ("WFT-" ++ Nat.repr date.year ++ padStart2 date.month ++ padStart2 date.day ++ "-"
        ++ nano e).data = _
    simp [String.data_append, List.append_assoc]
  rw [specCodeFormat, hdata, specCodeFormatL, specDateSuffix]
  have hAlen :
      ((date.year.repr.data ++ (padStart2 date.month).data)
        ++ (padStart2 date.day).data).length = 8 := by
    simp [List.length_append, hylen, hmlen, hdlen]
  have hcontains : ((nano e).data.all (fun ch => CONFIRM_ALPHABET.data.contains ch)) = true := by
    rw [List.all_eq_true]
    intro c hc
    exact List.elem_eq_true_of_mem (nano_mem_alphabet e c hc)
  have hnlen : (nano e).data.length = 6 := by
    rw [nano_data]
    simp
  rw [List.take_left' hAlen, List.drop_left' hAlen]
  simp [List.all_append, hydig, hmdig, hddig, hAlen, hnlen, hcontains]
  constructor
  · have h1 : date.year.repr.length = 4 := hylen
    have h2 : (padStart2 date.month).length = 2 := hmlen
    have h3 : (padStart2 date.day).length = 2 := hdlen
    omega
  · exact nano_mem_alphabet e

/-- The suffix never contains a visually confusable character, whatever the
entropy source yields. -/
theorem nano_no_confusables (e : Fin 6 → Fin CONFIRM_ALPHABET.length) :
    ((nano e).data.all (fun c => !(c == '0' || c == 'O' || c == '1' || c == 'I'))) = true := by
  rw [List.all_eq_true]
  intro c hc
  have halpha : ∀ c ∈ CONFIRM_ALPHABET.data,
      (!(c == '0' || c == 'O' || c == '1' || c == 'I')) = true := by decide
  exact halpha c (nano_mem_alphabet e c hc)

/-- C7 (counterexample): a client-reachable date with a 3-digit year (e.g.
`booking.date = "0999-12-31"`, so `getFullYear() = 999`) yields the code
`WFT-9991231-AAAAAA`, whose date field has only 7 digits — the claimed
format with 8 date digits is violated because the year is not zero-padded. -/
theorem c7_three_digit_year_breaks_format :
    buildConfirmationCode ⟨999, 12, 31⟩ entropyA = "WFT-9991231-AAAAAA" ∧
    specCodeFormat "WFT-9991231-AAAAAA" = false :=
  ⟨by decide, by decide⟩

/-- C7 (amended): for every date whose year has four digits (1000-9999) and
valid JS month/day ranges, and for every output of the entropy source, the
generated code matches `WFT-YYYYMMDD-XXXXXX` with zero-padded month and day;
and for every date and entropy output the 6-character suffix contains none
of the confusable characters `0`, `O`, `1`, `I`. -/
theorem c7_code_format_four_digit_years (date : JsDate)
    (e : Fin 6 → Fin CONFIRM_ALPHABET.length)
    (hy1 : 1000 ≤ date.year) (hy2 : date.year ≤ 9999)
    (hm1 : 1 ≤ date.month) (hm2 : date.month ≤ 12)
    (hd1 : 1 ≤ date.day) (hd2 : date.day ≤ 31) :
    specCodeFormat (buildConfirmationCode date e) = true ∧
    ((nano e).data.all (fun c => !(c == '0' || c == 'O' || c == '1' || c == 'I'))) = true :=
  ⟨buildConfirmationCode_format date e hy1 hy2 hm1 hm2 hd1 hd2, nano_no_confusables e⟩

theorem c7_code_format_four_digit_years_witness :
    specCodeFormat (buildConfirmationCode ⟨2025, 10, 12⟩ entropyA) = true ∧
    ((nano entropyA).data.all
      (fun c => !(c == '0' || c == 'O' || c == '1' || c == 'I'))) = true :=
  c7_code_format_four_digit_years ⟨2025, 10, 12⟩ entropyA (by decide) (by decide)
    (by decide) (by decide) (by decide) (by decide)
